/-
Verification of the agent orchestration and tool-routing layer of the
archon-ai conversational astrology assistant.

The definitions below are a shallow embedding of the Python source:
  - app/services/memory/models.py        (OnboardingState, Memory)
  - app/services/memory/memory_service.py (MemoryService)
  - app/services/memory/chroma_service.py (vector-store query, abstracted)
  - app/services/memory/langmem_processor.py (ReflectionExecutor)
  - app/agents/tools.py                  (agent tools)
  - app/agents/graph_agent.py            (turn state machine)
  - app/agents/astrology_agent.py        (AgentExecutor configuration)
  - app/services/astrology/kerykeion_service.py (score/curation logic)

External collaborators (the Kerykeion chart engine, geopy geocoding,
dateutil parsing, the LLM) are modelled as abstract function parameters;
a Python exception raised by a collaborator is modelled as `Except.error`
or `Option.none`.  Machine floats that only ever hold small exact values
(scores, coordinates, percentages) are modelled as `Rat`; number-to-text
rendering inside response strings is abstracted by `toString`.
-/
import Mathlib

namespace Archon

/-! ## OnboardingState (app/services/memory/models.py, lines 174-264) -/

/-- `OnboardingState` pydantic model: per-user onboarding progress flags.
All flags default to `false`, exactly as in the source. -/
structure OnboardingState where
  user_id : String
  has_name : Bool := false
  has_gender : Bool := false
  has_birth_date : Bool := false
  has_birth_time : Bool := false
  has_birth_location : Bool := false
  has_current_location : Bool := false
deriving DecidableEq, Repr

namespace OnboardingState

/-- `is_complete` property: the four required flags. -/
def is_complete (st : OnboardingState) : Bool :=
  st.has_name && st.has_gender && st.has_birth_date && st.has_birth_location

/-- Number of `True` entries of the python list
`[has_name, has_gender, has_birth_date, has_birth_location]`. -/
def required_count (st : OnboardingState) : Nat :=
  [st.has_name, st.has_gender, st.has_birth_date, st.has_birth_location].count true

/-- Number of `True` entries of `[has_birth_time, has_current_location]`. -/
def optional_count (st : OnboardingState) : Nat :=
  [st.has_birth_time, st.has_current_location].count true

/-- `completion_percentage` property:
`int(sum(required)/len(required)*80 + sum(optional)/len(optional)*20)`.
The float arithmetic is exact here (quarters and halves scaled by 80/20),
so it is modelled over `Rat`; python `int()` truncates toward zero, which
on these non-negative values is the floor. -/
def completion_percentage (st : OnboardingState) : Int :=
  ⌊(st.required_count : ℚ) / 4 * 80 + (st.optional_count : ℚ) / 2 * 20⌋

/-- `next_question` property: first unmet field in priority order. -/
def next_question (st : OnboardingState) : Option String :=
  if !st.has_name then some "name"
  else if !st.has_gender then some "gender"
  else if !st.has_birth_date then some "birth_date"
  else if !st.has_birth_location then some "birth_location"
  else if !st.has_birth_time then some "birth_time"
  else if !st.has_current_location then some "current_location"
  else none

/-- `missing_required` property: required fields still missing, in order. -/
def missing_required (st : OnboardingState) : List String :=
  (if !st.has_name then ["name"] else []) ++
  (if !st.has_gender then ["gender"] else []) ++
  (if !st.has_birth_date then ["birth_date"] else []) ++
  (if !st.has_birth_location then ["birth_location"] else [])

end OnboardingState

/-! ## UserProfile (pydantic) and MemoryService.get_onboarding_state
(app/services/memory/models.py lines 31-105,
 app/services/memory/memory_service.py lines 182-202) -/

/-- `Location` pydantic model. -/
structure Location where
  city : String
  latitude : ℚ
  longitude : ℚ
  timezone : String
deriving DecidableEq, Repr

/-- `BirthData` pydantic model: `date` and `location` are required fields,
`time` is optional. -/
structure BirthData where
  date : String
  time : Option String := none
  location : Location
  time_unknown : Bool := false
deriving DecidableEq, Repr

/-- The slice of the `UserProfile` pydantic model that
`get_onboarding_state` reads. -/
structure UserProfile where
  id : String
  name : Option String := none
  gender : Option String := none
  birth_data : Option BirthData := none
  current_location : Option Location := none
deriving DecidableEq, Repr

/-- `MemoryService.get_onboarding_state`: looks the user up in the
in-memory `self.profiles` dict (modelled as an association list); a user
with no stored profile gets `OnboardingState(user_id=user_id)`, i.e. all
flags at their `false` defaults.  For a stored profile each flag mirrors
the `is not None` checks of the source (for `has_birth_date` and
`has_birth_location` the second conjunct `birth_data.date is not None` /
`birth_data.location is not None` is always true once `birth_data` is
present, since both are required fields of the pydantic model). -/
def get_onboarding_state (profiles : List (String × UserProfile))
    (user_id : String) : OnboardingState :=
  match profiles.lookup user_id with
  | none => { user_id := user_id }
  | some p =>
      { user_id := user_id
        has_name := p.name.isSome
        has_gender := p.gender.isSome
        has_birth_date := p.birth_data.isSome
        has_birth_time := (p.birth_data.bind fun bd => bd.time).isSome
        has_birth_location := p.birth_data.isSome
        has_current_location := p.current_location.isSome }

/-! ## Memory storage and search
(app/services/memory/models.py lines 108-134 and 161-164,
 app/services/memory/memory_service.py lines 249-370) -/

/-- `Memory` pydantic model (the fields the search path touches). -/
structure Memory where
  id : String
  user_id : String
  mem_type : String
  content : String
deriving DecidableEq, Repr

/-- `MemorySearchResult` pydantic model. -/
structure MemorySearchResult where
  memory : Memory
  relevance_score : ℚ
deriving DecidableEq, Repr

/-- The `MemoryService.memories` dict (`user_id -> list of Memory`),
modelled as an association list; a missing key reads as the empty list
(the source initialises `self.memories[user_id] = []` on first store). -/
def MemState := List (String × List Memory)

/-- Read `self.memories[user_id]` (empty when the key is absent). -/
def memories_of (st : MemState) (user_id : String) : List Memory :=
  (st.lookup user_id).getD []

/-- `MemoryService.store_memory` cache update: builds a `Memory` whose
`user_id` field is the id the call was made for, and appends it to that
user's list (`self.memories[user_id].append(memory)`).  The vector-store
write (`_store_memory_vector`) has no effect on this cache. -/
def store_memory (st : MemState) (user_id : String) (content : String)
    (memory_type : String) (fresh_id : String) : MemState :=
  (user_id, memories_of st user_id ++
    [{ id := fresh_id, user_id := user_id, mem_type := memory_type,
       content := content }]) :: st

/-- `MemoryService._get_memory_by_id`: linear scan of the calling user's
own cache entry; `metadata.get('memory_id')` may be `None`, which never
matches any stored string id. -/
def get_memory_by_id (st : MemState) (user_id : String)
    (memory_id : Option String) : Option Memory :=
  match memory_id with
  | none => none
  | some mid => (memories_of st user_id).find? (fun m => m.id == mid)

/-- One row of the vector-store query result for
`MemoryService.search_memories`: parallel entries of `documents[0]`,
`metadatas[0]` and `distances[0]`.  The hits are left completely
unconstrained here (the Chroma collection is an external collaborator),
which makes the isolation theorem below robust even against a
misbehaving vector store. -/
structure QueryHit where
  document : String
  memory_id : Option String
  memory_type : String
  distance : ℚ
deriving DecidableEq, Repr

/-- `MemoryService.search_memories`, lines 308-360: walk the vector-store
hits in order; drop hits whose `memory_type` fails the optional filter;
resolve each surviving hit through `_get_memory_by_id(user_id, ...)`;
relevance is `1 - distance/2`. -/
def search_memories (st : MemState) (user_id : String)
    (memory_types : Option (List String)) (hits : List QueryHit) :
    List MemorySearchResult :=
  hits.foldl
    (fun acc hit =>
      if (match memory_types with
          | some ts => !ts.isEmpty && !(ts.contains hit.memory_type)
          | none => false) then acc
      else
        match get_memory_by_id st user_id hit.memory_id with
        | some m => acc ++ [{ memory := m, relevance_score := 1 - hit.distance / 2 }]
        | none => acc)
    []

/-- Per-user ownership invariant of the memory cache: every `Memory`
stored under a user id carries that id in its `user_id` field. -/
def mem_state_wf (st : MemState) : Prop :=
  ∀ uid : String, ∀ m ∈ memories_of st uid, m.user_id = uid

/-! ## ReflectionExecutor debounce
(app/services/memory/langmem_processor.py lines 48-142)

`submit` cancels the calling user's not-yet-done pending task and
schedules a fresh one that sleeps `delay` seconds and then extracts.
The model below is a discrete timeline for one user: a pending job
scheduled at time `ts` fires at `ts + delay` unless a later `submit`
arrives strictly before that moment, in which case it is cancelled and
never runs (`asyncio.CancelledError` is swallowed in
`_delayed_process`); a `submit` arriving at or after the fire time finds
the task `done()` and leaves its firing in place. -/

/-- One `submit` call: its arrival time and the conversation window
(message list) it carries. -/
structure SubmitEvent where
  t : Nat
  window : List String
deriving DecidableEq, Repr

/-- An extraction that actually ran: when it fired and on which window. -/
abbrev Firing := Nat × List String

/-- Process one `submit` against the pending slot: a pending job whose
fire time has passed is recorded as fired; otherwise it is cancelled.
Either way the new call takes the slot. -/
def executor_step (delay : Nat) :
    Option (Nat × List String) × List Firing → SubmitEvent →
    Option (Nat × List String) × List Firing
  | (pending, fired), e =>
    match pending with
    | none => (some (e.t, e.window), fired)
    | some (ts, w) =>
        if ts + delay ≤ e.t then
          (some (e.t, e.window), fired ++ [(ts + delay, w)])
        else
          (some (e.t, e.window), fired)

/-- Run a time-ordered list of `submit` calls for one user and collect
every extraction that fires (the last pending job always fires once the
timeline runs out, since nothing arrives to cancel it). -/
def run_executor (delay : Nat) (events : List SubmitEvent) : List Firing :=
  match events.foldl (executor_step delay) (none, []) with
  | (none, fired) => fired
  | (some (ts, w), fired) => fired ++ [(ts + delay, w)]

/-! ## Kerykeion service logic
(app/services/astrology/kerykeion_service.py lines 324-392)

The ephemeris engine itself (Kerykeion's `AstrologicalSubject` and
`AspectsFactory`) is an external collaborator; the raw aspect lists it
produces are abstract inputs.  The score and curation logic below is the
repository's own and is embedded concretely. -/

/-- One raw aspect as produced by Kerykeion (`p1_name`, `p2_name`,
`aspect`, `orbit`, `aspect_movement` attributes). -/
structure AspectRec where
  p1_name : String
  p2_name : String
  aspect : String
  orbit : ℚ
  movement : String
deriving DecidableEq, Repr

/-- One entry of `KerykeionService._format_aspects`. -/
structure FormattedAspect where
  planet1 : String
  planet2 : String
  aspect_type : String
  orb : ℚ
  applying : Bool
deriving DecidableEq, Repr

/-- `KerykeionService._format_aspects`. -/
def format_aspects (aspects : List AspectRec) : List FormattedAspect :=
  aspects.map fun a =>
    { planet1 := a.p1_name, planet2 := a.p2_name, aspect_type := a.aspect,
      orb := a.orbit, applying := a.movement == "Applying" }

/-- `KerykeionService._identify_significant_transits`: keep major-aspect
entries in engine order, format them, cap at 5. -/
def identify_significant_transits (aspects : List AspectRec) : List String :=
  ((aspects.filter fun a =>
      ["conjunction", "opposition", "square", "trine", "sextile"].contains
        a.aspect.toLower).map fun a =>
      a.p1_name ++ " " ++ a.aspect.toLower ++ " " ++ a.p2_name).take 5

/-- `KerykeionService._calculate_compatibility_score`: 50 when the aspect
list is empty, otherwise 50 plus the signed aspect weights, clamped by
`max(0, min(100, score))`. -/
def calculate_compatibility_score (aspects : List AspectRec) : ℚ :=
  if aspects = [] then 50
  else
    let score := aspects.foldl
      (fun s a =>
        let t := a.aspect.toLower
        if t = "trine" then s + 3
        else if t = "sextile" then s + 2
        else if t = "conjunction" then s + 1
        else if t = "opposition" then s - 2
        else if t = "square" then s - 3
        else s) 50
    max 0 (min 100 score)

/-- `KerykeionService._identify_synastry_strengths`: trine/sextile
entries, capped at 3. -/
def identify_synastry_strengths (aspects : List AspectRec) : List String :=
  ((aspects.filter fun a => a.aspect.toLower = "trine" ∨ a.aspect.toLower = "sextile").map
    fun a => a.p1_name ++ "-" ++ a.p2_name ++ " " ++ a.aspect.toLower).take 3

/-- `KerykeionService._identify_synastry_challenges`: opposition/square
entries, capped at 3. -/
def identify_synastry_challenges (aspects : List AspectRec) : List String :=
  ((aspects.filter fun a => a.aspect.toLower = "opposition" ∨ a.aspect.toLower = "square").map
    fun a => a.p1_name ++ "-" ++ a.p2_name ++ " " ++ a.aspect.toLower).take 3

/-- The `transit_data` dict built by `KerykeionService.compute_transits`. -/
structure TransitData where
  transit_date : String
  aspects : List FormattedAspect
  significant_transits : List String
deriving DecidableEq, Repr

/-- The `synastry_data` dict built by `KerykeionService.compute_synastry`. -/
structure SynastryData where
  aspects : List FormattedAspect
  compatibility_score : ℚ
  strengths : List String
  challenges : List String
deriving DecidableEq, Repr

/-- `KerykeionService.compute_synastry` downstream of the engine: an
engine exception propagates (`raise`), otherwise the result dict is
assembled from the repository's own score/curation functions. -/
def compute_synastry (raw : Except String (List AspectRec)) :
    Except String SynastryData :=
  match raw with
  | .error e => .error e
  | .ok aspects =>
      .ok { aspects := format_aspects aspects
            compatibility_score := calculate_compatibility_score aspects
            strengths := identify_synastry_strengths aspects
            challenges := identify_synastry_challenges aspects }

/-! ## Agent tools (app/agents/tools.py)

Auxiliary data shapes for the remaining engine outputs, then the tool
bodies.  Every tool is a total function into `String`: the source wraps
its whole body in `try/except` and converts any exception into an error
string, which the embedding realises by pattern matching on the
collaborator's `Except` result. -/

/-- Python truthiness of an optional string (`None` and `""` are falsy). -/
def py_truthy_str : Option String → Bool
  | none => false
  | some s => !(s == "")

/-- Python truthiness of an optional float (`None` and `0.0` are falsy). -/
def py_truthy_q : Option ℚ → Bool
  | none => false
  | some q => !(q == 0)

/-- Python `x or d` on an optional string (`None` and `""` fall back to
the default). -/
def py_or_str (o : Option String) (d : String) : String :=
  match o with
  | none => d
  | some s => if s == "" then d else s

/-- Python `x or 0.0` on an optional float (`None` and `0.0` both give
`0.0`), as used for the partner coordinates in `analyze_synastry`. -/
def py_or_zero (o : Option ℚ) : ℚ :=
  match o with
  | none => 0
  | some x => if x == 0 then 0 else x

/-- Whether a tool response is one of the error strings: every error
string the tools produce begins with `"Error"`, and no success string
does. -/
def starts_with_error (s : String) : Bool :=
  "Error".data.isPrefixOf s.data

/-- One planet entry of the stored natal-chart dict
(`KerykeionService._extract_chart_data`). -/
structure PlanetInfo where
  sign : String
  house : String
deriving DecidableEq, Repr

/-- The stored natal-chart dict, reduced to the parts the tools read. -/
structure ChartData where
  planets : List (String × PlanetInfo)
deriving DecidableEq, Repr

/-- The `sr_data` dict of `KerykeionService.compute_solar_return`. -/
structure SolarReturnData where
  year : Int
  themes : List String
  ascendant : Option String
deriving DecidableEq, Repr

/-- One entry of the dignities lists. -/
structure DignityEntry where
  planet : String
  sign : String
  dignity : String
  meaning : String
deriving DecidableEq, Repr

/-- The dict of `KerykeionService.get_planetary_dignities`. -/
structure DignitiesData where
  strong : List DignityEntry
  weak : List DignityEntry
deriving DecidableEq, Repr

/-- One entry of `KerykeionService.identify_aspect_patterns`. -/
structure PatternEntry where
  pattern : String
  element : Option String
  p_sign : Option String
  planets : List String
  apex : Option String
  meaning : Option String
deriving DecidableEq, Repr

/-- The dict of `KerykeionService.identify_aspect_patterns`. -/
structure PatternsData where
  patterns : List PatternEntry
  pattern_count : Nat
deriving DecidableEq, Repr

/-- The external collaborators a tool invocation consumes.  `Except
String` models the possibility that the collaborator raises; the date
fields abstract the wall clock and `datetime` parsing. -/
structure ToolEnv where
  transit_aspects :
    ChartData → Option String → Option ℚ → Option ℚ → Except String (List AspectRec)
  transit_date_of : Option String → String
  synastry_aspects :
    ChartData → String → Option String → ℚ → ℚ → Except String (List AspectRec)
  solar_return : ChartData → Option Int → Except String SolarReturnData
  dignities : ChartData → Except String DignitiesData
  patterns : ChartData → Except String PatternsData

/-- The profile fields of the injected user context that the chart tools
read. -/
structure ToolProfile where
  current_latitude : Option ℚ := none
  current_longitude : Option ℚ := none
deriving DecidableEq, Repr

/-- The `_user_context` dict set by `set_user_context`. -/
structure ToolContext where
  user_id : Option String := none
  natal_chart : Option ChartData := none
  profile : ToolProfile := {}
deriving DecidableEq, Repr

/-- `KerykeionService.compute_transits` downstream of the engine. -/
def compute_transits (env : ToolEnv) (chart : ChartData)
    (date : Option String) (clat clon : Option ℚ) :
    Except String TransitData :=
  match env.transit_aspects chart date clat clon with
  | .error e => .error e
  | .ok aspects =>
      .ok { transit_date := env.transit_date_of date
            aspects := format_aspects aspects
            significant_transits := identify_significant_transits aspects }

/-- The response string `get_current_transits` builds on success. -/
def format_transit_response (td : TransitData) : String :=
  let r := "Transit aspects for " ++ td.transit_date.take 10 ++ ":\n\n"
  let r := if td.significant_transits.isEmpty then r
    else r ++ "Major transits:\n" ++
      String.join (td.significant_transits.map fun t => "- " ++ t ++ "\n")
  let r := r ++ "\nTotal aspects found: " ++ toString td.aspects.length ++ "\n"
  if td.aspects.isEmpty then r
  else r ++ "\nTop aspects:\n" ++
    String.join ((td.aspects.take 5).map fun a =>
      "- " ++ a.planet1 ++ " " ++ a.aspect_type ++ " natal " ++ a.planet2 ++
      " (orb: " ++ toString a.orb ++ "°)\n")

/-- Tool `get_current_transits`. -/
def get_current_transits (env : ToolEnv) (ctx : ToolContext)
    (date : Option String) : String :=
  match ctx.natal_chart with
  | none =>
      "Error: User\x27s natal chart not available. Please ensure the user has completed their profile."
  | some chart =>
      match compute_transits env chart date ctx.profile.current_latitude
          ctx.profile.current_longitude with
      | .error e => "Error computing transits: " ++ e
      | .ok td => format_transit_response td

/-- The response string `analyze_synastry` builds on success. -/
def format_synastry_response (sd : SynastryData) : String :=
  let r := "Synastry Analysis:\n\nCompatibility Score: " ++
    toString sd.compatibility_score ++ "/100\n\n"
  let r := if sd.strengths.isEmpty then r
    else r ++ "Relationship Strengths:\n" ++
      String.join (sd.strengths.map fun s => "- " ++ s ++ "\n") ++ "\n"
  if sd.challenges.isEmpty then r
  else r ++ "Relationship Challenges:\n" ++
    String.join (sd.challenges.map fun c => "- " ++ c ++ "\n")

/-- Tool `analyze_synastry`: missing partner coordinates default through
python `or` to `0.0` before the engine call. -/
def analyze_synastry (env : ToolEnv) (ctx : ToolContext)
    (partner_birth_date : String) (partner_birth_time : Option String)
    (partner_latitude partner_longitude : Option ℚ) : String :=
  match ctx.natal_chart with
  | none => "Error: User\x27s natal chart not available."
  | some chart =>
      let lat := py_or_zero partner_latitude
      let lon := py_or_zero partner_longitude
      match compute_synastry
          (env.synastry_aspects chart partner_birth_date partner_birth_time lat lon) with
      | .error e => "Error computing synastry: " ++ e
      | .ok sd => format_synastry_response sd

/-- The per-planet summary `search_chart_memory` builds on success. -/
def format_chart_summary (chart : ChartData) : String :=
  "Natal Chart Summary:\n\n" ++
  String.join (chart.planets.map fun p =>
    p.1.capitalize ++ ": " ++ p.2.sign ++ ", House " ++ p.2.house ++ "\n")

/-- Tool `search_chart_memory`: a structured per-planet summary of the
stored chart dict (no engine call on this path). -/
def search_chart_memory (ctx : ToolContext) (_query : String) : String :=
  match ctx.natal_chart with
  | none => "Error: User\x27s natal chart not available."
  | some chart => format_chart_summary chart

/-- The response string `get_solar_return` builds on success. -/
def format_solar_response (sr : SolarReturnData) : String :=
  let r := "Solar Return " ++ toString sr.year ++ " - Your Year Ahead:\n\n"
  let r := if sr.themes.isEmpty then r
    else r ++ String.join (sr.themes.map fun t => "• " ++ t ++ "\n")
  if py_truthy_str sr.ascendant then
    r ++ "\nYear\x27s Rising Sign: " ++ sr.ascendant.getD "" ++
      "\n(This colors how you present yourself this year)\n"
  else r

/-- Tool `get_solar_return`. -/
def get_solar_return (env : ToolEnv) (ctx : ToolContext)
    (year : Option Int) : String :=
  match ctx.natal_chart with
  | none =>
      "Error: User\x27s natal chart not available. Please ensure birth data is complete."
  | some chart =>
      match env.solar_return chart year with
      | .error e => "Error computing solar return: " ++ e
      | .ok sr => format_solar_response sr

/-- The response string `get_planetary_dignities` builds on success. -/
def format_dignities_response (d : DignitiesData) : String :=
  let r := "Planetary Dignities Analysis:\n\n"
  let r := if d.strong.isEmpty then r
    else r ++ "STRENGTHS (Naturally Gifted):\n" ++
      String.join (d.strong.map fun x =>
        "• " ++ x.planet ++ " in " ++ x.sign ++ " (" ++ x.dignity ++
        ")\n  " ++ x.meaning ++ "\n\n")
  let r := if d.weak.isEmpty then r
    else r ++ "GROWTH AREAS (Require Conscious Effort):\n" ++
      String.join (d.weak.map fun x =>
        "• " ++ x.planet ++ " in " ++ x.sign ++ " (" ++ x.dignity ++
        ")\n  " ++ x.meaning ++ "\n\n")
  if d.strong.isEmpty && d.weak.isEmpty then
    r ++ "All planets in neutral positions - balanced expression across the board.\n"
  else r

/-- Tool `get_planetary_dignities`. -/
def get_planetary_dignities (env : ToolEnv) (ctx : ToolContext) : String :=
  match ctx.natal_chart with
  | none => "Error: User\x27s natal chart not available."
  | some chart =>
      match env.dignities chart with
      | .error e => "Error analyzing dignities: " ++ e
      | .ok d => format_dignities_response d

/-- The per-entry formatting of `get_aspect_patterns`. -/
def format_pattern_entry (p : PatternEntry) : String :=
  let r := "• " ++ p.pattern
  let r := if py_truthy_str p.element then r ++ " in " ++ p.element.getD "" else r
  let r := if py_truthy_str p.p_sign then r ++ " in " ++ p.p_sign.getD "" else r
  let r := r ++ "\n"
  let r := if p.planets.isEmpty then r
    else r ++ "  Planets: " ++
      String.intercalate ", " (p.planets.map String.capitalize) ++ "\n"
  let r := if py_truthy_str p.apex then
      r ++ "  Apex: " ++ (p.apex.getD "").capitalize ++ "\n"
    else r
  let r := if py_truthy_str p.meaning then r ++ "  " ++ p.meaning.getD "" ++ "\n"
    else r
  r ++ "\n"

/-- The response string `get_aspect_patterns` builds on success
(including the no-patterns message). -/
def format_patterns_response (pd : PatternsData) : String :=
  if pd.patterns.isEmpty then
    "No major aspect patterns identified in your chart. Your planetary energies work more independently."
  else
    "Aspect Patterns Found (" ++ toString pd.pattern_count ++ "):\n\n" ++
    String.join (pd.patterns.map format_pattern_entry)

/-- Tool `get_aspect_patterns`. -/
def get_aspect_patterns (env : ToolEnv) (ctx : ToolContext) : String :=
  match ctx.natal_chart with
  | none => "Error: User\x27s natal chart not available."
  | some chart =>
      match env.patterns chart with
      | .error e => "Error identifying patterns: " ++ e
      | .ok pd => format_patterns_response pd

/-! ## update_user_profile (app/agents/tools.py lines 215-416)

The tool mutates the `UserDB` row of the calling user and eagerly
recomputes the natal chart when birth date and coordinates are all
present.  The row is modelled directly (the claims under verification
concern an existing user; the user-not-found branches return an error
string without mutating anything).  The external collaborators —
`dateutil` parsing, Nominatim geocoding, `TimezoneFinder`, and the chart
engine — are abstract functions in `ProfileEnv`, with `none` modelling a
raised exception or a not-found result.  `datetime.utcnow()` is an
explicit `now` argument. -/

/-- The `UserDB` row fields that `update_user_profile` reads or writes
(app/models/user.py lines 34-54). -/
structure UserRec where
  name : Option String := none
  gender : Option String := none
  birth_date : Option String := none
  birth_time : Option String := none
  birth_location : Option String := none
  birth_latitude : Option ℚ := none
  birth_longitude : Option ℚ := none
  birth_timezone : Option String := none
  current_location : Option String := none
  current_latitude : Option ℚ := none
  current_longitude : Option ℚ := none
  location_updated_at : Option Nat := none
  natal_chart_data : Option ChartData := none
  natal_chart_computed_at : Option Nat := none
deriving DecidableEq, Repr

/-- External collaborators of `update_user_profile`. -/
structure ProfileEnv where
  parse_date : String → Option String
  parse_time : String → Option String
  geocode : String → Option (ℚ × ℚ)
  timezone_at : ℚ → ℚ → Option String
  compute_chart : String → Option String → ℚ → ℚ → String → Option ChartData

/-- Helper `compute_and_store_natal_chart`: computes and caches the chart
when `user.birth_date`, `user.birth_latitude` and `user.birth_longitude`
are all python-truthy (note: a latitude or longitude of exactly `0.0` is
falsy); a chart-engine exception is caught and leaves the row as it was. -/
def compute_and_store_natal_chart (env : ProfileEnv) (now : Nat)
    (u : UserRec) : UserRec × Option ChartData :=
  if py_truthy_str u.birth_date && py_truthy_q u.birth_latitude &&
      py_truthy_q u.birth_longitude then
    match env.compute_chart (u.birth_date.getD "") u.birth_time
        (u.birth_latitude.getD 0) (u.birth_longitude.getD 0)
        (py_or_str u.birth_timezone "UTC") with
    | some c =>
        ({ u with natal_chart_data := some c,
                  natal_chart_computed_at := some now }, some c)
    | none => (u, none)
  else (u, none)

/-- Tool `update_user_profile`: returns the updated row together with
the confirmation or error string.  The branch structure mirrors the
source: the geocoding branch runs only for `birth_city`/`current_city`
with `needs_geocoding` set; otherwise the generic field dispatch runs,
dropping unknown combinations into the final "Unknown field" return. -/
def update_user_profile (env : ProfileEnv) (now : Nat) (u : UserRec)
    (field value : String) (needs_geocoding : Bool) : UserRec × String :=
  if needs_geocoding && (field == "birth_city" || field == "current_city") then
    match env.geocode value with
    | none =>
        (u, "Could not find coordinates for \x27" ++ value ++
          "\x27. Please try a more specific location (e.g., \x27New York, NY\x27 or \x27London, UK\x27).")
    | some (lat, lon) =>
        let tz := py_or_str (env.timezone_at lat lon) "UTC"
        if field == "birth_city" then
          let u1 := { u with birth_location := some value,
                             birth_latitude := some lat,
                             birth_longitude := some lon,
                             birth_timezone := some tz }
          let res := compute_and_store_natal_chart env now u1
          match res.2 with
          | some _ =>
              (res.1, "Saved birth location: " ++ value ++ " (" ++ tz ++
                "). Your natal chart has been computed!")
          | none =>
              if py_truthy_str res.1.birth_date then
                (res.1, "Saved birth location: " ++ value ++ " (" ++ tz ++
                  "). Chart computed!")
              else
                (res.1, "Saved birth location: " ++ value ++ " (" ++ tz ++
                  "). Still need your birth date to compute your chart.")
        else
          ({ u with current_location := some value,
                    current_latitude := some lat,
                    current_longitude := some lon,
                    location_updated_at := some now },
           "Updated current location to " ++ value ++ " (" ++ tz ++ ")")
  else if field == "name" then
    ({ u with name := some value }, "Nice to meet you, " ++ value ++ "!")
  else if field == "gender" then
    ({ u with gender := some value },
     "Updated gender/pronouns to " ++ value)
  else if field == "birth_date" then
    match env.parse_date value with
    | none =>
        (u, "Could not parse date \x27" ++ value ++
          "\x27. Please use a format like \x27June 15, 1990\x27 or \x271990-06-15\x27.")
    | some d =>
        let u1 := { u with birth_date := some d }
        let res := compute_and_store_natal_chart env now u1
        match res.2 with
        | some _ =>
            (res.1, "Saved birth date: " ++ d ++
              ". Your natal chart has been computed!")
        | none =>
            if py_truthy_q res.1.birth_latitude then
              (res.1, "Saved birth date: " ++ d ++ ". Chart computed!")
            else
              (res.1, "Saved birth date: " ++ d ++
                ". Still need your birth location to compute your chart.")
  else if field == "birth_time" then
    match env.parse_time value with
    | none =>
        (u, "Could not parse time \x27" ++ value ++
          "\x27. Please use a format like \x272:30 PM\x27 or \x2714:30\x27.")
    | some t =>
        let u1 := { u with birth_time := some t }
        let res := compute_and_store_natal_chart env now u1
        match res.2 with
        | some _ =>
            (res.1, "Saved birth time: " ++ t ++
              ". Your natal chart has been updated with accurate rising sign and house placements!")
        | none =>
            (res.1, "Saved birth time: " ++ t ++
              ". Still need birth date and location to compute your chart.")
  else
    (u, "Unknown field: " ++ field ++
      ". Supported fields: name, gender, birth_date, birth_time, birth_city, current_city")

/-- The onboarding flags derived from the `UserDB` row that
`update_user_profile` writes, using the same is-present checks as
`MemoryService.get_onboarding_state` applies to its profile store. -/
def onboarding_of_rec (uid : String) (u : UserRec) : OnboardingState :=
  { user_id := uid
    has_name := u.name.isSome
    has_gender := u.gender.isSome
    has_birth_date := u.birth_date.isSome
    has_birth_time := u.birth_time.isSome
    has_birth_location := u.birth_location.isSome
    has_current_location := u.current_location.isSome }

/-- The stored value of the profile field a given tool `field` name
targets. -/
def stored_field_value (u : UserRec) (field : String) : Option String :=
  if field == "name" then u.name
  else if field == "gender" then u.gender
  else if field == "birth_date" then u.birth_date
  else if field == "birth_time" then u.birth_time
  else if field == "birth_city" then u.birth_location
  else if field == "current_city" then u.current_location
  else none

/-- The value `update_user_profile` derives from the raw `value` for a
given field: names and genders are stored verbatim, dates and times are
normalised by the parser, city names are stored as given. -/
def derived_value (env : ProfileEnv) (field value : String) : Option String :=
  if field == "name" then some value
  else if field == "gender" then some value
  else if field == "birth_date" then env.parse_date value
  else if field == "birth_time" then env.parse_time value
  else if field == "birth_city" then some value
  else if field == "current_city" then some value
  else none

/-- A call to `update_user_profile` that takes a storing branch: the
field is one of the six supported ones, city fields come with
`needs_geocoding=True`, and the relevant collaborator succeeds. -/
def valid_update (env : ProfileEnv) (field value : String)
    (needs_geocoding : Bool) : Prop :=
  (field = "name" ∧ needs_geocoding = false) ∨
  (field = "gender" ∧ needs_geocoding = false) ∨
  (field = "birth_date" ∧ needs_geocoding = false ∧ (env.parse_date value).isSome) ∨
  (field = "birth_time" ∧ needs_geocoding = false ∧ (env.parse_time value).isSome) ∨
  ((field = "birth_city" ∨ field = "current_city") ∧ needs_geocoding = true ∧
    (env.geocode value).isSome)

/-! ## Turn state machine (app/agents/graph_agent.py lines 81-291)

The LangGraph turn pipeline: START → route_query → (conditional edge
`should_use_tools`) → use_tools | generate_response → END.  The language
model is an abstract strategy: `tool_step` is the tools-bound model call
of `use_tools_node` (returning the assistant message content and the
requested tool calls), `respond` is the final model call of
`generate_response_node`; tool execution is an abstract function from a
call to its textual result. -/

/-- The slice of `AstrologyAgentState` the routing logic touches;
messages are abstracted to their content strings. -/
structure AgentState where
  messages : List String
  next_action : String
  tool_outputs : List String
deriving DecidableEq, Repr

/-- The dict returned by `route_query_node`. -/
structure RouteUpdate where
  next_action : String
  tool_outputs : List String
deriving DecidableEq, Repr

/-- `AstrologyGraphAgent.route_query_node`: always decides
`"use_tools"`, delegating tool selection to the model. -/
def route_query_node (_st : AgentState) : RouteUpdate :=
  { next_action := "use_tools", tool_outputs := [] }

/-- LangGraph merging a node's partial state update into the state. -/
def apply_route_update (st : AgentState) (r : RouteUpdate) : AgentState :=
  { st with next_action := r.next_action, tool_outputs := r.tool_outputs }

/-- `AstrologyGraphAgent.should_use_tools`: the conditional edge reads
`state["next_action"]`. -/
def should_use_tools (st : AgentState) : String :=
  st.next_action

/-- The language-model strategy a turn consumes (arbitrary behaviour,
including requesting tools on every call). -/
structure GraphLlm where
  tool_step : List String → String × List String
  respond : List String → String

/-- `AstrologyGraphAgent.use_tools_node`: one tools-bound model call;
each requested tool is executed once, in order, and the assistant
message plus the tool results are appended to the history. -/
def use_tools_node (llm : GraphLlm) (tool_exec : String → String)
    (st : AgentState) : AgentState :=
  let (resp, calls) := llm.tool_step st.messages
  let outputs := calls.map tool_exec
  { st with messages := st.messages ++ [resp] ++ outputs,
            tool_outputs := outputs }

/-- `AstrologyGraphAgent.generate_response_node`: the final model call
on the full history, appended as the answer. -/
def generate_response_node (llm : GraphLlm) (st : AgentState) :
    AgentState × String :=
  let out := llm.respond st.messages
  ({ st with messages := st.messages ++ [out] }, out)

/-- Result of one full turn through the compiled graph. -/
structure GraphTurnResult where
  final_state : AgentState
  response : String
  trace : List String
deriving DecidableEq, Repr

/-- One turn through the graph: route, follow the conditional edge, run
the chosen nodes, end.  `trace` records the nodes visited in order. -/
def run_graph_turn (llm : GraphLlm) (tool_exec : String → String)
    (msgs : List String) : GraphTurnResult :=
  let st0 : AgentState := { messages := msgs, next_action := "", tool_outputs := [] }
  let st1 := apply_route_update st0 (route_query_node st0)
  if should_use_tools st1 == "use_tools" then
    let st2 := use_tools_node llm tool_exec st1
    let (st3, out) := generate_response_node llm st2
    { final_state := st3, response := out,
      trace := ["route_query", "use_tools", "generate_response"] }
  else
    let (st3, out) := generate_response_node llm st1
    { final_state := st3, response := out,
      trace := ["route_query", "generate_response"] }

/-! ## AgentExecutor iteration bound
(app/agents/astrology_agent.py lines 69-81)

`create_agent_executor` configures `AgentExecutor(..., max_iterations=3)`.
Modelled from the spec: the tool-call loop itself lives in the external
langchain `AgentExecutor`, which repeatedly asks the model for either
tool calls or a final answer, executes requested tools, and — once the
configured iteration cap is exhausted — stops with a fallback response
instead of looping further. -/

/-- The `max_iterations` value the repository configures. -/
def max_iterations : Nat := 3

/-- One model decision inside the executor loop. -/
inductive AgentStep where
  | act (tool_calls : List String)
  | finish (output : String)

/-- The executor loop on remaining iteration budget: returns the final
output and the number of tool-call rounds performed.  A model that never
finishes is cut off at the budget with a stopped-response. -/
def agent_loop (model : List String → AgentStep)
    (tool_exec : String → String) :
    Nat → List String → String × Nat
  | 0, _ => ("Agent stopped due to iteration limit.", 0)
  | fuel + 1, hist =>
      match model hist with
      | .finish out => (out, 0)
      | .act calls =>
          let results := calls.map tool_exec
          let (out, n) := agent_loop model tool_exec fuel (hist ++ calls ++ results)
          (out, n + 1)

/-- The effect of one `update_user_profile` call on the onboarding
flags, as a function of the flags alone: a storing branch sets the
targeted flag, a failing or unknown branch changes nothing.  Used to
characterise the tool's behaviour; the correspondence with the tool body
is proved below. -/
def onboarding_update_spec (env : ProfileEnv) (field value : String)
    (needs_geocoding : Bool) (st : OnboardingState) : OnboardingState :=
  if needs_geocoding && (field == "birth_city" || field == "current_city") then
    match env.geocode value with
    | none => st
    | some _ =>
        if field == "birth_city" then { st with has_birth_location := true }
        else { st with has_current_location := true }
  else if field == "name" then { st with has_name := true }
  else if field == "gender" then { st with has_gender := true }
  else if field == "birth_date" then
    match env.parse_date value with
    | none => st
    | some _ => { st with has_birth_date := true }
  else if field == "birth_time" then
    match env.parse_time value with
    | none => st
    | some _ => { st with has_birth_time := true }
  else st

/-! ## Concrete instances used by the witnesses -/

/-- A natal chart with one planet, for witnesses. -/
def chart0 : ChartData :=
  { planets := [("sun", { sign := "Aries", house := "1" })] }

/-- A concrete collaborator environment in which every engine call
succeeds, for witnesses. -/
def env0 : ToolEnv :=
  { transit_aspects := fun _ _ _ _ => .ok []
    transit_date_of := fun _ => "2024-06-15T12:00:00"
    synastry_aspects := fun _ _ _ _ _ => .ok []
    solar_return := fun _ _ =>
      .ok { year := 2024, themes := ["Growth"], ascendant := some "Leo" }
    dignities := fun _ => .ok { strong := [], weak := [] }
    patterns := fun _ => .ok { patterns := [], pattern_count := 0 } }

/-- A user context whose chart is present, for witnesses. -/
def ctx0 : ToolContext :=
  { user_id := some "userA", natal_chart := some chart0, profile := {} }

/-- A user context whose chart is absent, for witnesses. -/
def ctx_empty : ToolContext := {}

/-- A collaborator environment in which parsing and geocoding always
fail, for witnesses. -/
def env_fail : ProfileEnv :=
  { parse_date := fun _ => none
    parse_time := fun _ => none
    geocode := fun _ => none
    timezone_at := fun _ _ => none
    compute_chart := fun _ _ _ _ _ => none }

/-- A collaborator environment in which every parse, geocode and chart
computation succeeds, for witnesses. -/
def env_ok : ProfileEnv :=
  { parse_date := fun s =>
      if s == "June 15, 1990" || s == "1990-06-15" then some "1990-06-15" else none
    parse_time := fun s => if s == "2:30 PM" then some "14:30:00" else none
    geocode := fun s => if s == "Austin" then some (30, -97) else none
    timezone_at := fun _ _ => some "America/Chicago"
    compute_chart := fun _ _ _ _ _ => some chart0 }

/-! ## Theorems -/

/-- C8: for every `OnboardingState`, `completion_percentage` is exactly
20 points per satisfied required flag plus 10 points per satisfied
optional flag (the 80%/20% weighting evaluated exactly), an integer that
always lies in [0,100] and reaches 100 precisely when all six flags
hold. -/
theorem completion_percentage_weighted (st : OnboardingState) :
    st.completion_percentage = 20 * st.required_count + 10 * st.optional_count ∧
    0 ≤ st.completion_percentage ∧ st.completion_percentage ≤ 100 ∧
    (st.completion_percentage = 100 ↔
      (st.has_name = true ∧ st.has_gender = true ∧ st.has_birth_date = true ∧
       st.has_birth_location = true ∧ st.has_birth_time = true ∧
       st.has_current_location = true)) := by
  have hkey : st.completion_percentage =
      20 * st.required_count + 10 * st.optional_count := by
    unfold OnboardingState.completion_percentage
    have h : ((st.required_count : ℚ) / 4 * 80 + (st.optional_count : ℚ) / 2 * 20)
        = ((20 * st.required_count + 10 * st.optional_count : ℤ) : ℚ) := by
      push_cast
      ring
    rw [h, Int.floor_intCast]
  have hr : st.required_count ≤ 4 := by
    unfold OnboardingState.required_count
    cases st.has_name <;> cases st.has_gender <;> cases st.has_birth_date <;>
      cases st.has_birth_location <;> decide
  have ho : st.optional_count ≤ 2 := by
    unfold OnboardingState.optional_count
    cases st.has_birth_time <;> cases st.has_current_location <;> decide
  have hr4 : (st.required_count = 4) ↔
      (st.has_name = true ∧ st.has_gender = true ∧ st.has_birth_date = true ∧
       st.has_birth_location = true) := by
    unfold OnboardingState.required_count
    cases st.has_name <;> cases st.has_gender <;> cases st.has_birth_date <;>
      cases st.has_birth_location <;> decide
  have ho2 : (st.optional_count = 2) ↔
      (st.has_birth_time = true ∧ st.has_current_location = true) := by
    unfold OnboardingState.optional_count
    cases st.has_birth_time <;> cases st.has_current_location <;> decide
  refine ⟨hkey, by rw [hkey]; omega, by rw [hkey]; omega, ?_⟩
  rw [hkey]
  constructor
  · intro h100
    have hro : st.required_count = 4 ∧ st.optional_count = 2 := by omega
    obtain ⟨h1, h2, h3, h4⟩ := hr4.mp hro.1
    obtain ⟨h5, h6⟩ := ho2.mp hro.2
    exact ⟨h1, h2, h3, h4, h5, h6⟩
  · rintro ⟨h1, h2, h3, h4, h5, h6⟩
    have e1 : st.required_count = 4 := hr4.mpr ⟨h1, h2, h3, h4⟩
    have e2 : st.optional_count = 2 := ho2.mpr ⟨h5, h6⟩
    rw [e1, e2]
    rfl

/-- C10: for a user id with no stored profile, `get_onboarding_state`
returns a fresh all-false state: not complete, 0% completion, next
question `name`, all four required fields missing. -/
theorem get_onboarding_state_fresh (profiles : List (String × UserProfile))
    (uid : String) (h : profiles.lookup uid = none) :
    get_onboarding_state profiles uid = { user_id := uid } ∧
    (get_onboarding_state profiles uid).is_complete = false ∧
    (get_onboarding_state profiles uid).completion_percentage = 0 ∧
    (get_onboarding_state profiles uid).next_question = some "name" ∧
    (get_onboarding_state profiles uid).missing_required =
      ["name", "gender", "birth_date", "birth_location"] := by
  unfold get_onboarding_state
  rw [h]
  refine ⟨rfl, rfl, ?_, rfl, rfl⟩
  show (⌊(((0 : Nat) : ℚ)) / 4 * 80 + (((0 : Nat) : ℚ)) / 2 * 20⌋ : ℤ) = 0
  norm_num

/-- Witness for C10 at the empty profile store. -/
theorem get_onboarding_state_fresh_witness :
    (get_onboarding_state [] "user-1").next_question = some "name" ∧
    (get_onboarding_state [] "user-1").completion_percentage = 0 :=
  ⟨(get_onboarding_state_fresh [] "user-1" rfl).2.2.2.1,
   (get_onboarding_state_fresh [] "user-1" rfl).2.2.1⟩

/-- C9: the routing step always decides `"use_tools"`: for every agent
state the conditional edge evaluates to `"use_tools"` (never
`"respond_directly"`), so every turn's trace passes through the
`use_tools` node. -/
theorem route_always_use_tools (st : AgentState) :
    (route_query_node st).next_action = "use_tools" ∧
    should_use_tools (apply_route_update st (route_query_node st)) = "use_tools" ∧
    should_use_tools (apply_route_update st (route_query_node st)) ≠ "respond_directly" ∧
    ∀ (llm : GraphLlm) (tool_exec : String → String) (msgs : List String),
      (run_graph_turn llm tool_exec msgs).trace =
        ["route_query", "use_tools", "generate_response"] := by
  refine ⟨rfl, rfl, ?_, ?_⟩
  · show ("use_tools" : String) ≠ "respond_directly"
    decide
  · intro llm tool_exec msgs
    rfl

/-- The executor loop never performs more tool rounds than its fuel. -/
theorem agent_loop_rounds_le (model : List String → AgentStep)
    (tool_exec : String → String) :
    ∀ (fuel : Nat) (hist : List String),
      (agent_loop model tool_exec fuel hist).2 ≤ fuel := by
  intro fuel
  induction fuel with
  | zero => intro hist; simp [agent_loop]
  | succ n ih =>
      intro hist
      unfold agent_loop
      cases model hist with
      | finish out => simp
      | act calls =>
          simpa using Nat.succ_le_succ (ih (hist ++ calls ++ calls.map tool_exec))

/-- C4: for any model behaviour (including one that requests tools
forever) the tool-call loop of a single turn is bounded: the
`AgentExecutor` loop performs at most `max_iterations = 3` tool rounds
and still yields a response, and the graph turn visits the tools node
exactly once before generating a response that ends the history. -/
theorem tool_loop_iteration_bound (model : List String → AgentStep)
    (tool_exec : String → String) (hist : List String) (llm : GraphLlm)
    (graph_tools : String → String) (msgs : List String) :
    (agent_loop model tool_exec max_iterations hist).2 ≤ max_iterations ∧
    (run_graph_turn llm graph_tools msgs).trace =
      ["route_query", "use_tools", "generate_response"] ∧
    (run_graph_turn llm graph_tools msgs).trace.count "use_tools" = 1 ∧
    (run_graph_turn llm graph_tools msgs).final_state.messages.getLast? =
      some (run_graph_turn llm graph_tools msgs).response := by
  have htr : (run_graph_turn llm graph_tools msgs).trace =
      ["route_query", "use_tools", "generate_response"] := rfl
  refine ⟨agent_loop_rounds_le model tool_exec max_iterations hist, htr,
    by rw [htr]; decide, ?_⟩
  have hfs : (run_graph_turn llm graph_tools msgs).final_state.messages =
      (use_tools_node llm graph_tools
        (apply_route_update { messages := msgs, next_action := "", tool_outputs := [] }
          (route_query_node
            { messages := msgs, next_action := "", tool_outputs := [] }))).messages ++
      [(run_graph_turn llm graph_tools msgs).response] := rfl
  rw [hfs]
  exact List.getLast?_concat _

/-- C3: debounce. If extraction is scheduled at `t0` with delay `D` and
a second `submit` for the same user arrives at `t1 < t0 + D`, exactly
one extraction fires; it fires at `t1 + D ≥ t1 + D` on the second call's
window, and the first call's job never executes. -/
theorem debounce_single_firing (D t0 t1 : Nat) (w0 w1 : List String)
    (horder : t0 ≤ t1) (hcancel : t1 < t0 + D) :
    run_executor D [⟨t0, w0⟩, ⟨t1, w1⟩] = [(t1 + D, w1)] ∧
    (run_executor D [⟨t0, w0⟩, ⟨t1, w1⟩]).length = 1 ∧
    (∀ f ∈ run_executor D [⟨t0, w0⟩, ⟨t1, w1⟩], t1 + D ≤ f.1 ∧ f.2 = w1) ∧
    (w0 ≠ w1 → (t0 + D, w0) ∉ run_executor D [⟨t0, w0⟩, ⟨t1, w1⟩]) := by
  have _ := horder
  have heq : run_executor D [⟨t0, w0⟩, ⟨t1, w1⟩] = [(t1 + D, w1)] := by
    unfold run_executor
    simp only [List.foldl, executor_step]
    rw [if_neg (by omega)]
    rfl
  refine ⟨heq, by rw [heq]; rfl, ?_, ?_⟩
  · intro f hf
    rw [heq] at hf
    simp only [List.mem_singleton] at hf
    subst hf
    exact ⟨le_refl _, rfl⟩
  · intro hw hmem
    rw [heq] at hmem
    simp only [List.mem_singleton, Prod.mk.injEq] at hmem
    exact hw hmem.2

/-- Witness for C3: delay 5, first submit at 0, second at 2. -/
theorem debounce_single_firing_witness :
    run_executor 5 [⟨0, ["hello"]⟩, ⟨2, ["hello", "more"]⟩] = [(7, ["hello", "more"])] :=
  (debounce_single_firing 5 0 2 ["hello"] ["hello", "more"] (by decide) (by decide)).1

/-- Any property of accumulated results is preserved through a fold that
only ever appends elements satisfying it. -/
theorem foldl_mem_invariant {α β : Type} (f : List β → α → List β)
    (P : β → Prop)
    (hf : ∀ acc a, (∀ r ∈ acc, P r) → ∀ r ∈ f acc a, P r) :
    ∀ (l : List α) (acc : List β), (∀ r ∈ acc, P r) →
      ∀ r ∈ l.foldl f acc, P r := by
  intro l
  induction l with
  | nil => intro acc h; simpa using h
  | cons x xs ih =>
      intro acc h
      simp only [List.foldl_cons]
      exact ih (f acc x) (hf acc x h)

/-- Reading the cache after `store_memory`: the stored user's list grew
by the new memory, every other user's list is untouched. -/
theorem memories_of_store (st : MemState) (uid content mtype mid uid2 : String) :
    memories_of (store_memory st uid content mtype mid) uid2 =
      if uid2 == uid then
        memories_of st uid ++
          [{ id := mid, user_id := uid, mem_type := mtype, content := content }]
      else memories_of st uid2 := by
  unfold store_memory memories_of
  cases h : uid2 == uid
  · simp [List.lookup, h]
  · simp [List.lookup, h]

/-- C2: per-user memory isolation.  (1) For every cache state satisfying
the ownership invariant, `search_memories` for user `A` only ever returns
memories owned by `A` — in particular never one owned by a distinct user
`B` — no matter what the vector store returns for any query; (2) the
initial empty cache satisfies the invariant; (3) `store_memory`
preserves it. -/
theorem memory_search_isolation :
    (∀ (st : MemState) (A : String) (mt : Option (List String))
       (hits : List QueryHit), mem_state_wf st →
       ∀ r ∈ search_memories st A mt hits,
         r.memory.user_id = A ∧ ∀ B : String, B ≠ A → r.memory.user_id ≠ B) ∧
    mem_state_wf [] ∧
    (∀ (st : MemState) (uid content mtype mid : String),
      mem_state_wf st → mem_state_wf (store_memory st uid content mtype mid)) := by
  refine ⟨?_, ?_, ?_⟩
  · intro st A mt hits hwf
    have main : ∀ r ∈ search_memories st A mt hits, r.memory.user_id = A := by
      unfold search_memories
      refine foldl_mem_invariant _ _ ?_ hits [] (by simp)
      intro acc hit hacc r hr
      split at hr
      · exact hacc r hr
      · split at hr
        case _ m hmid =>
          rcases List.mem_append.mp hr with h1 | h2
          · exact hacc r h1
          · have hm : m ∈ memories_of st A := by
              unfold get_memory_by_id at hmid
              cases hmi : hit.memory_id with
              | none => rw [hmi] at hmid; cases hmid
              | some i =>
                  rw [hmi] at hmid
                  exact List.mem_of_find?_eq_some hmid
            have hA := hwf A m hm
            simp only [List.mem_singleton] at h2
            subst h2
            exact hA
        case _ hmid => exact hacc r hr
    intro r hr
    exact ⟨main r hr, fun B hB => by rw [main r hr]; exact Ne.symm hB⟩
  · intro uid m hm
    simp [memories_of] at hm
  · intro st uid content mtype mid hwf uid2 m hm
    rw [memories_of_store] at hm
    by_cases he : uid2 = uid
    · subst he
      rw [if_pos (by simp)] at hm
      rcases List.mem_append.mp hm with h1 | h2
      · exact hwf uid2 m h1
      · simp only [List.mem_singleton] at h2
        subst h2
        rfl
    · rw [if_neg (by simp [he])] at hm
      exact hwf uid2 m hm

/-- Witness for C2: a single stored memory for `userA` is returned with
owner `userA` when `userA` searches. -/
theorem memory_search_isolation_witness :
    mem_state_wf (store_memory [] "userA" "likes hiking" "semantic" "m1") ∧
    (search_memories (store_memory [] "userA" "likes hiking" "semantic" "m1")
        "userA" none
        [{ document := "likes hiking", memory_id := some "m1",
           memory_type := "semantic", distance := 0 }]).map
      (fun r => r.memory.user_id) = ["userA"] := by
  have hwf : mem_state_wf (store_memory [] "userA" "likes hiking" "semantic" "m1") :=
    memory_search_isolation.2.2 [] "userA" "likes hiking" "semantic" "m1"
      memory_search_isolation.2.1
  refine ⟨hwf, ?_⟩
  have happ := memory_search_isolation.1
    (store_memory [] "userA" "likes hiking" "semantic" "m1") "userA" none
    [{ document := "likes hiking", memory_id := some "m1",
       memory_type := "semantic", distance := 0 }] hwf
  rfl

/-- C6: with the user's chart present and no partner coordinates
supplied, `analyze_synastry` does not fail: it calls the engine with
partner coordinates `(0, 0)` and returns the formatted result, whose
compatibility score — like every score `_calculate_compatibility_score`
produces — lies in [0, 100]. -/
theorem synastry_default_coords (env : ToolEnv) (ctx : ToolContext)
    (chart : ChartData) (pbd : String) (pbt : Option String)
    (aspects : List AspectRec)
    (hc : ctx.natal_chart = some chart)
    (ha : env.synastry_aspects chart pbd pbt 0 0 = .ok aspects) :
    analyze_synastry env ctx pbd pbt none none =
      format_synastry_response
        { aspects := format_aspects aspects
          compatibility_score := calculate_compatibility_score aspects
          strengths := identify_synastry_strengths aspects
          challenges := identify_synastry_challenges aspects } ∧
    0 ≤ calculate_compatibility_score aspects ∧
    calculate_compatibility_score aspects ≤ 100 ∧
    ∀ as2 : List AspectRec, 0 ≤ calculate_compatibility_score as2 ∧
      calculate_compatibility_score as2 ≤ 100 := by
  have hbounds : ∀ as2 : List AspectRec,
      0 ≤ calculate_compatibility_score as2 ∧
      calculate_compatibility_score as2 ≤ 100 := by
    intro as2
    unfold calculate_compatibility_score
    split
    · norm_num
    · exact ⟨le_max_left 0 _, max_le (by norm_num) (min_le_left _ _)⟩
  refine ⟨?_, (hbounds aspects).1, (hbounds aspects).2, hbounds⟩
  have h1 : analyze_synastry env ctx pbd pbt none none =
      match compute_synastry (env.synastry_aspects chart pbd pbt 0 0) with
      | .error e => "Error computing synastry: " ++ e
      | .ok sd => format_synastry_response sd := by
    unfold analyze_synastry
    rw [hc]
    rfl
  rw [h1, ha]
  rfl

/-- Witness for C6: only the partner birth date supplied. -/
theorem synastry_default_coords_witness :
    analyze_synastry env0 ctx0 "1988-03-21" none none none =
      format_synastry_response
        { aspects := format_aspects []
          compatibility_score := calculate_compatibility_score []
          strengths := identify_synastry_strengths []
          challenges := identify_synastry_challenges [] } ∧
    0 ≤ calculate_compatibility_score [] ∧
    calculate_compatibility_score [] ≤ 100 := by
  have h := synastry_default_coords env0 ctx0 chart0 "1988-03-21" none [] rfl rfl
  exact ⟨h.1, h.2.1, h.2.2.1⟩

/-- C7: an unparseable `birth_date` value makes `update_user_profile`
return an error string containing the literal offending value and leaves
the row (in particular `birth_date`) untouched; a failed geocode of
`birth_city`/`current_city` likewise returns an error string naming the
value and performs no mutation. -/
theorem update_error_no_mutation (env : ProfileEnv) (now : Nat) (u : UserRec)
    (v w : String)
    (hd : env.parse_date v = none) (hg : env.geocode w = none) :
    update_user_profile env now u "birth_date" v false =
      (u, "Could not parse date \x27" ++ v ++
        "\x27. Please use a format like \x27June 15, 1990\x27 or \x271990-06-15\x27.") ∧
    (∃ a b, (update_user_profile env now u "birth_date" v false).2 = a ++ v ++ b) ∧
    (update_user_profile env now u "birth_date" v false).1.birth_date = u.birth_date ∧
    update_user_profile env now u "birth_city" w true =
      (u, "Could not find coordinates for \x27" ++ w ++
        "\x27. Please try a more specific location (e.g., \x27New York, NY\x27 or \x27London, UK\x27).") ∧
    (∃ a b, (update_user_profile env now u "birth_city" w true).2 = a ++ w ++ b) ∧
    update_user_profile env now u "current_city" w true =
      (u, "Could not find coordinates for \x27" ++ w ++
        "\x27. Please try a more specific location (e.g., \x27New York, NY\x27 or \x27London, UK\x27).") := by
  have h1 : update_user_profile env now u "birth_date" v false =
      (u, "Could not parse date \x27" ++ v ++
        "\x27. Please use a format like \x27June 15, 1990\x27 or \x271990-06-15\x27.") := by
    unfold update_user_profile
    simp only [Bool.false_and, if_false, Bool.false_eq_true]
    rw [if_neg (by decide), if_neg (by decide), if_pos (by decide), hd]
  have h2 : update_user_profile env now u "birth_city" w true =
      (u, "Could not find coordinates for \x27" ++ w ++
        "\x27. Please try a more specific location (e.g., \x27New York, NY\x27 or \x27London, UK\x27).") := by
    unfold update_user_profile
    rw [if_pos (by decide), hg]
  have h3 : update_user_profile env now u "current_city" w true =
      (u, "Could not find coordinates for \x27" ++ w ++
        "\x27. Please try a more specific location (e.g., \x27New York, NY\x27 or \x27London, UK\x27).") := by
    unfold update_user_profile
    rw [if_pos (by decide), hg]
  refine ⟨h1, ⟨_, _, by rw [h1]⟩, by rw [h1], h2, ⟨_, _, by rw [h2]⟩, h3⟩

/-- Witness for C7: the unparseable date "a while ago" and an
ungeocodable city. -/
theorem update_error_no_mutation_witness :
    update_user_profile env_fail 0 {} "birth_date" "a while ago" false =
      ({}, "Could not parse date \x27a while ago\x27. Please use a format like \x27June 15, 1990\x27 or \x271990-06-15\x27.") ∧
    update_user_profile env_fail 0 {} "birth_city" "Atlantis" true =
      ({}, "Could not find coordinates for \x27Atlantis\x27. Please try a more specific location (e.g., \x27New York, NY\x27 or \x27London, UK\x27).") := by
  have h := update_error_no_mutation env_fail 0 {} "a while ago" "Atlantis" rfl rfl
  exact ⟨h.1, h.2.2.2.1⟩

/-! ### String-prefix helpers for distinguishing error from success
responses -/

theorem data_append_eq (p x : String) : (p ++ x).data = p.data ++ x.data := rfl

/-- A string whose first character is not `E` is not an error response. -/
theorem swe_false_of_head (s : String) (c : Char)
    (h : s.data.head? = some c) (hne : ('E' == c) = false) :
    starts_with_error s = false := by
  unfold starts_with_error
  cases hd : s.data with
  | nil => rw [hd] at h; cases h
  | cons c2 cs =>
      rw [hd] at h
      have hc2 : c2 = c := by simpa using h
      subst hc2
      show (('E' == c2) && List.isPrefixOf ['r', 'r', 'o', 'r'] cs) = false
      rw [hne]
      rfl

theorem format_transit_head (td : TransitData) :
    (format_transit_response td).data.head? = some 'T' := by
  have hT : "Transit aspects for ".data = 'T' :: "ransit aspects for ".data := rfl
  unfold format_transit_response
  dsimp only
  split_ifs <;> simp [data_append_eq, hT]

theorem format_synastry_head (sd : SynastryData) :
    (format_synastry_response sd).data.head? = some 'S' := by
  have hS : "Synastry Analysis:\n\nCompatibility Score: ".data =
      'S' :: "ynastry Analysis:\n\nCompatibility Score: ".data := rfl
  unfold format_synastry_response
  dsimp only
  split_ifs <;> simp [data_append_eq, hS]

theorem format_chart_summary_head (chart : ChartData) :
    (format_chart_summary chart).data.head? = some 'N' := by
  have hN : "Natal Chart Summary:\n\n".data =
      'N' :: "atal Chart Summary:\n\n".data := rfl
  unfold format_chart_summary
  simp [data_append_eq, hN]

theorem format_solar_head (sr : SolarReturnData) :
    (format_solar_response sr).data.head? = some 'S' := by
  have hS : "Solar Return ".data = 'S' :: "olar Return ".data := rfl
  unfold format_solar_response
  dsimp only
  split_ifs <;> simp [data_append_eq, hS]

theorem format_dignities_head (d : DignitiesData) :
    (format_dignities_response d).data.head? = some 'P' := by
  have hP : "Planetary Dignities Analysis:\n\n".data =
      'P' :: "lanetary Dignities Analysis:\n\n".data := rfl
  unfold format_dignities_response
  dsimp only
  split_ifs <;> simp [data_append_eq, hP]

theorem format_patterns_not_error (pd : PatternsData) :
    starts_with_error (format_patterns_response pd) = false := by
  unfold format_patterns_response
  split
  · exact swe_false_of_head _ 'N' rfl (by decide)
  · refine swe_false_of_head _ 'A' ?_ (by decide)
    have hA : "Aspect Patterns Found (".data =
        'A' :: "spect Patterns Found (".data := rfl
    simp [data_append_eq, hA]

/-! ### Chart-present reductions of the six chart-requiring tools -/

theorem get_current_transits_chart (env : ToolEnv) (ctx : ToolContext)
    (date : Option String) (chart : ChartData)
    (hc : ctx.natal_chart = some chart) :
    get_current_transits env ctx date =
      match compute_transits env chart date ctx.profile.current_latitude
          ctx.profile.current_longitude with
      | .error e => "Error computing transits: " ++ e
      | .ok td => format_transit_response td := by
  unfold get_current_transits
  rw [hc]

theorem analyze_synastry_chart (env : ToolEnv) (ctx : ToolContext)
    (pbd : String) (pbt : Option String) (plat plon : Option ℚ)
    (chart : ChartData) (hc : ctx.natal_chart = some chart) :
    analyze_synastry env ctx pbd pbt plat plon =
      match compute_synastry (env.synastry_aspects chart pbd pbt
          (py_or_zero plat) (py_or_zero plon)) with
      | .error e => "Error computing synastry: " ++ e
      | .ok sd => format_synastry_response sd := by
  unfold analyze_synastry
  rw [hc]

theorem search_chart_memory_chart (ctx : ToolContext) (q : String)
    (chart : ChartData) (hc : ctx.natal_chart = some chart) :
    search_chart_memory ctx q = format_chart_summary chart := by
  unfold search_chart_memory
  rw [hc]

theorem get_solar_return_chart (env : ToolEnv) (ctx : ToolContext)
    (year : Option Int) (chart : ChartData)
    (hc : ctx.natal_chart = some chart) :
    get_solar_return env ctx year =
      match env.solar_return chart year with
      | .error e => "Error computing solar return: " ++ e
      | .ok sr => format_solar_response sr := by
  unfold get_solar_return
  rw [hc]

theorem get_planetary_dignities_chart (env : ToolEnv) (ctx : ToolContext)
    (chart : ChartData) (hc : ctx.natal_chart = some chart) :
    get_planetary_dignities env ctx =
      match env.dignities chart with
      | .error e => "Error analyzing dignities: " ++ e
      | .ok d => format_dignities_response d := by
  unfold get_planetary_dignities
  rw [hc]

theorem get_aspect_patterns_chart (env : ToolEnv) (ctx : ToolContext)
    (chart : ChartData) (hc : ctx.natal_chart = some chart) :
    get_aspect_patterns env ctx =
      match env.patterns chart with
      | .error e => "Error identifying patterns: " ++ e
      | .ok pd => format_patterns_response pd := by
  unfold get_aspect_patterns
  rw [hc]

/-- C1: chart gating and exception totality of the six chart-requiring
tools.  (a) With the natal chart absent from the user context, each tool
returns its fixed error string.  (b) With the chart present — as it is
once birth date and birth location have both been stored, per the
profile lifecycle — and the engine call succeeding, each tool returns
its success-formatted response, which is not an error string.  (c) When
the engine raises, the exception is converted into an error string: in
every case the tool returns a string, so no exception propagates. -/
theorem chart_gating_tools (env : ToolEnv) (ctx : ToolContext)
    (date : Option String) (pbd : String) (pbt : Option String)
    (plat plon : Option ℚ) (q : String) (year : Option Int) :
    (ctx.natal_chart = none →
      get_current_transits env ctx date =
        "Error: User\x27s natal chart not available. Please ensure the user has completed their profile." ∧
      analyze_synastry env ctx pbd pbt plat plon =
        "Error: User\x27s natal chart not available." ∧
      search_chart_memory ctx q = "Error: User\x27s natal chart not available." ∧
      get_solar_return env ctx year =
        "Error: User\x27s natal chart not available. Please ensure birth data is complete." ∧
      get_planetary_dignities env ctx = "Error: User\x27s natal chart not available." ∧
      get_aspect_patterns env ctx = "Error: User\x27s natal chart not available.") ∧
    (∀ chart, ctx.natal_chart = some chart →
      (∀ td, compute_transits env chart date ctx.profile.current_latitude
          ctx.profile.current_longitude = .ok td →
        get_current_transits env ctx date = format_transit_response td ∧
        starts_with_error (get_current_transits env ctx date) = false) ∧
      (∀ sd, compute_synastry (env.synastry_aspects chart pbd pbt
          (py_or_zero plat) (py_or_zero plon)) = .ok sd →
        analyze_synastry env ctx pbd pbt plat plon = format_synastry_response sd ∧
        starts_with_error (analyze_synastry env ctx pbd pbt plat plon) = false) ∧
      (search_chart_memory ctx q = format_chart_summary chart ∧
        starts_with_error (search_chart_memory ctx q) = false) ∧
      (∀ sr, env.solar_return chart year = .ok sr →
        get_solar_return env ctx year = format_solar_response sr ∧
        starts_with_error (get_solar_return env ctx year) = false) ∧
      (∀ d, env.dignities chart = .ok d →
        get_planetary_dignities env ctx = format_dignities_response d ∧
        starts_with_error (get_planetary_dignities env ctx) = false) ∧
      (∀ pd, env.patterns chart = .ok pd →
        get_aspect_patterns env ctx = format_patterns_response pd ∧
        starts_with_error (get_aspect_patterns env ctx) = false)) ∧
    (∀ chart, ctx.natal_chart = some chart →
      (∀ e, env.transit_aspects chart date ctx.profile.current_latitude
          ctx.profile.current_longitude = .error e →
        get_current_transits env ctx date = "Error computing transits: " ++ e) ∧
      (∀ e, env.synastry_aspects chart pbd pbt (py_or_zero plat)
          (py_or_zero plon) = .error e →
        analyze_synastry env ctx pbd pbt plat plon = "Error computing synastry: " ++ e) ∧
      (∀ e, env.solar_return chart year = .error e →
        get_solar_return env ctx year = "Error computing solar return: " ++ e) ∧
      (∀ e, env.dignities chart = .error e →
        get_planetary_dignities env ctx = "Error analyzing dignities: " ++ e) ∧
      (∀ e, env.patterns chart = .error e →
        get_aspect_patterns env ctx = "Error identifying patterns: " ++ e)) := by
  refine ⟨?_, ?_, ?_⟩
  · intro h0
    unfold get_current_transits analyze_synastry search_chart_memory
      get_solar_return get_planetary_dignities get_aspect_patterns
    rw [h0]
    exact ⟨rfl, rfl, rfl, rfl, rfl, rfl⟩
  · intro chart hc
    refine ⟨?_, ?_, ?_, ?_, ?_, ?_⟩
    · intro td htd
      have heq : get_current_transits env ctx date = format_transit_response td := by
        rw [get_current_transits_chart env ctx date chart hc, htd]
      exact ⟨heq, by
        rw [heq]
        exact swe_false_of_head _ 'T' (format_transit_head td) (by decide)⟩
    · intro sd hsd
      have heq : analyze_synastry env ctx pbd pbt plat plon =
          format_synastry_response sd := by
        rw [analyze_synastry_chart env ctx pbd pbt plat plon chart hc, hsd]
      exact ⟨heq, by
        rw [heq]
        exact swe_false_of_head _ 'S' (format_synastry_head sd) (by decide)⟩
    · have heq := search_chart_memory_chart ctx q chart hc
      exact ⟨heq, by
        rw [heq]
        exact swe_false_of_head _ 'N' (format_chart_summary_head chart) (by decide)⟩
    · intro sr hsr
      have heq : get_solar_return env ctx year = format_solar_response sr := by
        rw [get_solar_return_chart env ctx year chart hc, hsr]
      exact ⟨heq, by
        rw [heq]
        exact swe_false_of_head _ 'S' (format_solar_head sr) (by decide)⟩
    · intro d hd
      have heq : get_planetary_dignities env ctx = format_dignities_response d := by
        rw [get_planetary_dignities_chart env ctx chart hc, hd]
      exact ⟨heq, by
        rw [heq]
        exact swe_false_of_head _ 'P' (format_dignities_head d) (by decide)⟩
    · intro pd hpd
      have heq : get_aspect_patterns env ctx = format_patterns_response pd := by
        rw [get_aspect_patterns_chart env ctx chart hc, hpd]
      exact ⟨heq, by
        rw [heq]
        exact format_patterns_not_error pd⟩
  · intro chart hc
    refine ⟨?_, ?_, ?_, ?_, ?_⟩
    · intro e he
      have hct : compute_transits env chart date ctx.profile.current_latitude
          ctx.profile.current_longitude = .error e := by
        unfold compute_transits
        rw [he]
      rw [get_current_transits_chart env ctx date chart hc, hct]
    · intro e he
      rw [analyze_synastry_chart env ctx pbd pbt plat plon chart hc, he]
      rfl
    · intro e he
      rw [get_solar_return_chart env ctx year chart hc, he]
    · intro e he
      rw [get_planetary_dignities_chart env ctx chart hc, he]
    · intro e he
      rw [get_aspect_patterns_chart env ctx chart hc, he]

/-- Witness for C1: the transit tool errors with the chart absent and
succeeds with it present in an all-succeeding environment. -/
theorem chart_gating_tools_witness :
    get_current_transits env0 ctx_empty none =
      "Error: User\x27s natal chart not available. Please ensure the user has completed their profile." ∧
    get_aspect_patterns env0 ctx_empty = "Error: User\x27s natal chart not available." ∧
    starts_with_error (get_current_transits env0 ctx0 none) = false ∧
    starts_with_error (search_chart_memory ctx0 "sun sign") = false := by
  have habsent := (chart_gating_tools env0 ctx_empty none "1988-03-21" none
    none none "sun sign" none).1 rfl
  have hpresent := (chart_gating_tools env0 ctx0 none "1988-03-21" none
    none none "sun sign" none).2.1 chart0 rfl
  exact ⟨habsent.1, habsent.2.2.2.2.2,
    (hpresent.1 _ rfl).2, hpresent.2.2.1.2⟩

/-! ### update_user_profile characterisation (for C5) -/

/-- `compute_and_store_natal_chart` only ever touches the chart cache
fields of the row. -/
theorem cas_erase (env : ProfileEnv) (now : Nat) (u : UserRec) :
    ∃ ncd ncca, (compute_and_store_natal_chart env now u).1 =
      { u with natal_chart_data := ncd, natal_chart_computed_at := ncca } := by
  unfold compute_and_store_natal_chart
  split
  · split
    · exact ⟨_, _, rfl⟩
    · exact ⟨u.natal_chart_data, u.natal_chart_computed_at, rfl⟩
  · exact ⟨u.natal_chart_data, u.natal_chart_computed_at, rfl⟩

/-- The chart recomputation step does not change the onboarding flags. -/
theorem onboarding_cas (uid : String) (env : ProfileEnv) (now : Nat)
    (u : UserRec) :
    onboarding_of_rec uid (compute_and_store_natal_chart env now u).1 =
      onboarding_of_rec uid u := by
  obtain ⟨ncd, ncca, h⟩ := cas_erase env now u
  rw [h]
  rfl

theorem cas_name (env : ProfileEnv) (now : Nat) (u : UserRec) :
    (compute_and_store_natal_chart env now u).1.name = u.name := by
  obtain ⟨ncd, ncca, h⟩ := cas_erase env now u
  rw [h]

theorem cas_gender (env : ProfileEnv) (now : Nat) (u : UserRec) :
    (compute_and_store_natal_chart env now u).1.gender = u.gender := by
  obtain ⟨ncd, ncca, h⟩ := cas_erase env now u
  rw [h]

theorem cas_birth_date (env : ProfileEnv) (now : Nat) (u : UserRec) :
    (compute_and_store_natal_chart env now u).1.birth_date = u.birth_date := by
  obtain ⟨ncd, ncca, h⟩ := cas_erase env now u
  rw [h]

theorem cas_birth_time (env : ProfileEnv) (now : Nat) (u : UserRec) :
    (compute_and_store_natal_chart env now u).1.birth_time = u.birth_time := by
  obtain ⟨ncd, ncca, h⟩ := cas_erase env now u
  rw [h]

theorem cas_birth_location (env : ProfileEnv) (now : Nat) (u : UserRec) :
    (compute_and_store_natal_chart env now u).1.birth_location = u.birth_location := by
  obtain ⟨ncd, ncca, h⟩ := cas_erase env now u
  rw [h]

theorem cas_current_location (env : ProfileEnv) (now : Nat) (u : UserRec) :
    (compute_and_store_natal_chart env now u).1.current_location = u.current_location := by
  obtain ⟨ncd, ncca, h⟩ := cas_erase env now u
  rw [h]

/-- The onboarding flags after an `update_user_profile` call are exactly
`onboarding_update_spec` applied to the flags before it. -/
theorem update_onboarding_char (uid : String) (env : ProfileEnv) (now : Nat)
    (u : UserRec) (field value : String) (needs_geocoding : Bool) :
    onboarding_of_rec uid (update_user_profile env now u field value needs_geocoding).1 =
      onboarding_update_spec env field value needs_geocoding (onboarding_of_rec uid u) := by
  unfold update_user_profile onboarding_update_spec
  dsimp only
  repeat' split
  all_goals (try rw [onboarding_cas])
  all_goals simp_all [onboarding_of_rec]

/-- Applying the same profile update twice is the same as applying it
once, at the level of onboarding flags. -/
theorem onboarding_update_spec_idem (env : ProfileEnv) (field value : String)
    (needs_geocoding : Bool) (st : OnboardingState) :
    onboarding_update_spec env field value needs_geocoding
        (onboarding_update_spec env field value needs_geocoding st) =
      onboarding_update_spec env field value needs_geocoding st := by
  unfold onboarding_update_spec
  by_cases h1 : (needs_geocoding && (field == "birth_city" || field == "current_city")) = true
  · simp only [if_pos h1]
    cases hge : env.geocode value with
    | none => rfl
    | some x =>
        by_cases h2 : (field == "birth_city") = true
        · simp only [if_pos h2]
        · simp only [if_neg h2]
  · simp only [if_neg h1]
    by_cases h2 : (field == "name") = true
    · simp only [if_pos h2]
    · simp only [if_neg h2]
      by_cases h3 : (field == "gender") = true
      · simp only [if_pos h3]
      · simp only [if_neg h3]
        by_cases h4 : (field == "birth_date") = true
        · simp only [if_pos h4]
          cases hpd : env.parse_date value with
          | none => rfl
          | some d => rfl
        · simp only [if_neg h4]
          by_cases h5 : (field == "birth_time") = true
          · simp only [if_pos h5]
            cases hpt : env.parse_time value with
            | none => rfl
            | some t => rfl
          · simp only [if_neg h5]

/-- After a valid storing call, the targeted field holds exactly the
value derived from the call's `value`. -/
theorem stored_after_update (env : ProfileEnv) (now : Nat) (u : UserRec)
    (field value : String) (needs_geocoding : Bool)
    (hv : valid_update env field value needs_geocoding) :
    stored_field_value (update_user_profile env now u field value needs_geocoding).1 field =
      derived_value env field value := by
  rcases hv with ⟨hf, hg⟩ | ⟨hf, hg⟩ | ⟨hf, hg, hp⟩ | ⟨hf, hg, hp⟩ | ⟨hf, hg, hp⟩
  · subst hf; subst hg
    unfold update_user_profile stored_field_value derived_value
    simp
  · subst hf; subst hg
    unfold update_user_profile stored_field_value derived_value
    simp
  · subst hf; subst hg
    obtain ⟨d, hd⟩ := Option.isSome_iff_exists.mp hp
    have hmain : (update_user_profile env now u "birth_date" value false).1.birth_date
        = some d := by
      unfold update_user_profile
      simp only [hd]
      simp
      repeat' split
      all_goals simp_all [cas_birth_date]
    unfold stored_field_value derived_value
    simp [hd, hmain]
  · subst hf; subst hg
    obtain ⟨t, ht⟩ := Option.isSome_iff_exists.mp hp
    have hmain : (update_user_profile env now u "birth_time" value false).1.birth_time
        = some t := by
      unfold update_user_profile
      simp only [ht]
      simp
      repeat' split
      all_goals simp_all [cas_birth_time]
    unfold stored_field_value derived_value
    simp [ht, hmain]
  · obtain ⟨⟨lat, lon⟩, hgeo⟩ := Option.isSome_iff_exists.mp hp
    subst hg
    rcases hf with hf | hf
    · subst hf
      have hmain : (update_user_profile env now u "birth_city" value true).1.birth_location
          = some value := by
        unfold update_user_profile
        simp only [hgeo]
        simp
        repeat' split
        all_goals simp_all [cas_birth_location]
      unfold stored_field_value derived_value
      simp [hmain]
    · subst hf
      have hmain : (update_user_profile env now u "current_city" value true).1.current_location
          = some value := by
        unfold update_user_profile
        simp only [hgeo]
        simp
      unfold stored_field_value derived_value
      simp [hmain]

/-- C5: (idempotence) calling `update_user_profile` twice with the same
field and value yields the same `OnboardingState` as calling it once —
even at different wall-clock times, and whether or not the value is
valid; (last write wins) calling it with valid values `v1` then `v2` for
the same field leaves the profile holding exactly the value derived from
`v2`. -/
theorem update_profile_idempotent_lww (uid : String) (env : ProfileEnv)
    (now1 now2 : Nat) (u : UserRec) (field v v1 v2 : String) (g : Bool)
    (_h1 : valid_update env field v1 g) (h2 : valid_update env field v2 g) :
    onboarding_of_rec uid
        (update_user_profile env now2
          (update_user_profile env now1 u field v g).1 field v g).1 =
      onboarding_of_rec uid (update_user_profile env now1 u field v g).1 ∧
    stored_field_value
        (update_user_profile env now2
          (update_user_profile env now1 u field v1 g).1 field v2 g).1 field =
      derived_value env field v2 := by
  constructor
  · rw [update_onboarding_char, update_onboarding_char, onboarding_update_spec_idem]
  · exact stored_after_update env now2 _ field v2 g h2

/-- Witness for C5: storing a name twice is flag-idempotent; two
successive valid birth dates leave the second one stored. -/
theorem update_profile_idempotent_lww_witness :
    onboarding_of_rec "u1"
        (update_user_profile env_ok 2
          (update_user_profile env_ok 1 {} "name" "Sarah" false).1
          "name" "Sarah" false).1 =
      onboarding_of_rec "u1"
        (update_user_profile env_ok 1 {} "name" "Sarah" false).1 ∧
    stored_field_value
        (update_user_profile env_ok 2
          (update_user_profile env_ok 1 {} "birth_date" "June 15, 1990" false).1
          "birth_date" "1990-06-15" false).1 "birth_date" =
      derived_value env_ok "birth_date" "1990-06-15" := by
  have ha := update_profile_idempotent_lww "u1" env_ok 1 2 {} "name"
    "Sarah" "Sarah" "Sarah" false (Or.inl ⟨rfl, rfl⟩) (Or.inl ⟨rfl, rfl⟩)
  have hb := update_profile_idempotent_lww "u1" env_ok 1 2 {} "birth_date"
    "June 15, 1990" "June 15, 1990" "1990-06-15" false
    (Or.inr (Or.inr (Or.inl ⟨rfl, rfl, by decide⟩)))
    (Or.inr (Or.inr (Or.inl ⟨rfl, rfl, by decide⟩)))
  exact ⟨ha.1, hb.2⟩

end Archon
